import Mathlib

/-!
Formal model of the Wemos D1 mini water-level sensor firmware
(`src/Distanse Sensor/src/main.cpp`).

Conventions of the shallow embedding:
* `millis()` timestamps are `Nat` values; the firmware's `uint32_t`
  wraparound subtraction `now - last` is modelled by `sub32`.
* EEPROM is a byte-addressable store `Nat → Nat`; each cell holds a
  `uint8_t`, so every read truncates with `% 256` (`rd`).
* The C++ `float barrelHeightCm` travels through EEPROM as its raw
  IEEE-754 binary32 bit pattern (the code reinterprets it through a
  `union`), so the configuration record carries that 32-bit pattern
  (`barrelBits`); `floatValOfBits` recovers the numeric value where the
  code does float arithmetic, and `bitsOfNatFloat` is the (exact)
  conversion `(float)barrel` applied to the integral barrel heights
  1..1000 accepted by the save handler.
* Pure float arithmetic (`calculateWaterLevel`, `measureDistanceCM`) is
  modelled over `ℚ`.
-/

/-- `uint32_t` wraparound subtraction `a - b` for `a b < 2^32`,
as used in every interval comparison in the firmware. -/
def sub32 (a b : Nat) : Nat := (a + 2 ^ 32 - b) % 2 ^ 32

/-- Configuration record (`struct Config`, main.cpp lines 43-50).
`parentMac` is 6 bytes, `ssidPrefix` 16 bytes and `wifiPassword`
32 bytes, each byte a `uint8_t` value; `barrelBits` is the IEEE-754
binary32 bit pattern of the C++ `float barrelHeightCm`. -/
structure Config where
  parentMac : List Nat
  refreshRateMs : Nat
  barrelBits : Nat
  ledEnabled : Bool
  ssidPrefix : List Nat
  wifiPassword : List Nat
deriving DecidableEq, Repr

/-- Well-formedness of a `Config` value as represented in the C++
struct: correct array lengths, bytes fit `uint8_t`, numeric fields fit
`uint32_t`. -/
def Config.Valid (c : Config) : Prop :=
  c.parentMac.length = 6 ∧ (∀ b ∈ c.parentMac, b < 256) ∧
  c.refreshRateMs < 2 ^ 32 ∧ c.barrelBits < 2 ^ 32 ∧
  c.ssidPrefix.length = 16 ∧ (∀ b ∈ c.ssidPrefix, b < 256) ∧
  c.wifiPassword.length = 32 ∧ (∀ b ∈ c.wifiPassword, b < 256)

instance (c : Config) : Decidable c.Valid := by
  unfold Config.Valid; infer_instance

/-- Bytes of a C string literal stored in a fixed-size `char` array of
length `n`: the characters, then zero padding (aggregate initialization
zero-fills the remainder). -/
def strBytesPadded (s : String) (n : Nat) : List Nat :=
  ((s.toList.map Char.toNat) ++ List.replicate n 0).take n

/-- Floor of the base-2 logarithm by bounded structural recursion
(agrees with `Nat.log2` for arguments below `2 ^ fuel`; structural so
that the kernel can evaluate it). -/
def log2Fuel : Nat → Nat → Nat
  | 0, _ => 0
  | fuel + 1, n => if 2 ≤ n then log2Fuel fuel (n / 2) + 1 else 0

/-- IEEE-754 binary32 bit pattern of the float `(float)n` for a natural
number `n ≤ 2^24` (where the conversion is exact); used for the barrel
height, an integer in 1..1000 cast to `float` in `handleSave`. -/
def bitsOfNatFloat (n : Nat) : Nat :=
  if n = 0 then 0
  else (log2Fuel 32 n + 127) * 2 ^ 23 + (n * 2 ^ 23 / 2 ^ log2Fuel 32 n - 2 ^ 23)

/-- Default configuration values (field initializers of `struct Config`,
main.cpp lines 44-49). -/
def defaultConfig : Config where
  parentMac := [0xFF, 0xFF, 0xFF, 0xFF, 0xFF, 0xFF]
  refreshRateMs := 5000
  barrelBits := bitsOfNatFloat 50
  ledEnabled := true
  ssidPrefix := strBytesPadded "WATER_SENSOR_" 16
  wifiPassword := strBytesPadded "HardPassword1234" 32

/-- Numeric value of an IEEE-754 binary32 bit pattern as a rational
(NaN and infinities, exponent field 255, have no rational value and are
mapped to 0; they never arise in the configurations this firmware
writes). -/
def floatValOfBits (b : Nat) : ℚ :=
  let sign : ℚ := if b / 2 ^ 31 % 2 = 1 then -1 else 1
  let ex := b / 2 ^ 23 % 256
  let mant : ℚ := (b % 2 ^ 23 : Nat)
  if ex = 0 then sign * mant / 2 ^ 149
  else if ex = 255 then 0
  else sign * (2 ^ 23 + mant) * 2 ^ ex / 2 ^ 150

/-- A `uint8_t` EEPROM cell read: the stored value truncated to a byte
(`EEPROM.read`). -/
def rd (e : Nat → Nat) (a : Nat) : Nat := e a % 256

/-- `saveConfig` (main.cpp lines 95-137): serializes every field of the
config at its fixed offset and writes the `0xAA` marker at address 63.
Modelled as the resulting store; the `EEPROM.commit()` success bit is
external and is threaded separately by the callers that need it. -/
def saveConfig (c : Config) (e : Nat → Nat) : Nat → Nat := fun a =>
  if a < 6 then c.parentMac.getD a 0
  else if a < 10 then (c.refreshRateMs >>> ((a - 6) * 8)) &&& 0xFF
  else if a < 14 then (c.barrelBits >>> ((a - 10) * 8)) &&& 0xFF
  else if a = 14 then (if c.ledEnabled then 0x01 else 0x00)
  else if a < 31 then c.ssidPrefix.getD (a - 15) 0
  else if a < 63 then c.wifiPassword.getD (a - 31) 0
  else if a = 63 then 0xAA
  else e a

/-- `loadConfig` (main.cpp lines 140-186): returns `none` when the
marker byte at address 63 is not `0xAA` (populating nothing), otherwise
the record deserialized from the fixed offsets, multi-byte numerics
reassembled little-endian with `|=`/`<<` exactly as the load loops do. -/
def loadConfig (e : Nat → Nat) : Option Config :=
  if rd e 63 ≠ 0xAA then none
  else some
    { parentMac := (List.range 6).map (fun i => rd e i)
      refreshRateMs := (List.range 4).foldl (fun r i => r ||| (rd e (6 + i) <<< (i * 8))) 0
      barrelBits := (List.range 4).foldl (fun r i => r ||| (rd e (10 + i) <<< (i * 8))) 0
      ledEnabled := rd e 14 == 0x01
      ssidPrefix := (List.range 16).map (fun i => rd e (15 + i))
      wifiPassword := (List.range 32).map (fun i => rd e (31 + i)) }

/-- `clearConfig` (main.cpp lines 189-196): overwrites all
`EEPROM_SIZE = 64` bytes with `0xFF` and commits. -/
def clearConfig (e : Nat → Nat) : Nat → Nat := fun a =>
  if a < 64 then 0xFF else e a

/-- `msToMinSec` (main.cpp lines 199-202); the two `uint8_t` out
parameters are returned as a pair, with the implicit `uint8_t`
conversions of the assignments modelled by `% 256`. -/
def msToMinSec (ms : Nat) : Nat × Nat :=
  (ms / 60000 % 256, ms % 60000 / 1000 % 256)

/-- `minSecToMs` (main.cpp lines 205-207). The intermediate
`(minutes * 60 + seconds) * 1000` is at most `(255*60+255)*1000 < 2^31`
for `uint8_t` inputs, so the `int` arithmetic and the conversion to the
`uint32_t` return type are exact. -/
def minSecToMs (minutes seconds : Nat) : Nat :=
  (minutes * 60 + seconds) * 1000

/-- `measureDistanceCM` (main.cpp lines 299-324), as a function of the
echo duration in microseconds returned by `pulseIn` (0 on timeout):
returns the sentinel `-1` on timeout, else `duration * 0.034 / 2`. -/
def measureDistanceCM (duration : Nat) : ℚ :=
  if duration = 0 then -1
  else duration * (34 / 1000) / 2

/-- `calculateWaterLevel` (main.cpp lines 327-344), float arithmetic
modelled over `ℚ`: distances below 20 cm (including the `-1` timeout
sentinel) give 0, otherwise the offset-adjusted linear fill percentage
clamped to 0..100 by the two sequential `if`s. -/
def calculateWaterLevel (distance barrelHeight : ℚ) : ℚ :=
  if distance < 20 then 0
  else
    let adjustedDistance := distance - 20
    let waterLevel := (barrelHeight - adjustedDistance) / barrelHeight * 100
    let waterLevel := if waterLevel < 0 then 0 else waterLevel
    if waterLevel > 100 then 100 else waterLevel

/-! ### Helper lemmas -/

/-- Reassembling four bytes little-endian with `|=`/`<<` (as the
`loadConfig` loops do) equals the weighted sum. -/
theorem lorBytesLE (b0 b1 b2 b3 : Nat)
    (h0 : b0 < 256) (h1 : b1 < 256) (h2 : b2 < 256) (_h3 : b3 < 256) :
    ((b0 ||| b1 <<< 8) ||| b2 <<< 16) ||| b3 <<< 24
      = b0 + b1 * 2 ^ 8 + b2 * 2 ^ 16 + b3 * 2 ^ 24 := by
  rw [Nat.shiftLeft_eq, Nat.shiftLeft_eq, Nat.shiftLeft_eq]
  have e1 : b0 ||| b1 * 2 ^ 8 = b0 + b1 * 2 ^ 8 := by
    rw [Nat.or_comm, mul_comm b1, ← Nat.mul_add_lt_is_or h0 b1]; ring
  have hlt2 : b0 + b1 * 2 ^ 8 < 2 ^ 16 := by omega
  have e2 : (b0 + b1 * 2 ^ 8) ||| b2 * 2 ^ 16 = b0 + b1 * 2 ^ 8 + b2 * 2 ^ 16 := by
    rw [Nat.or_comm, mul_comm b2, ← Nat.mul_add_lt_is_or hlt2 b2]; ring
  have hlt3 : b0 + b1 * 2 ^ 8 + b2 * 2 ^ 16 < 2 ^ 24 := by omega
  have e3 : (b0 + b1 * 2 ^ 8 + b2 * 2 ^ 16) ||| b3 * 2 ^ 24
      = b0 + b1 * 2 ^ 8 + b2 * 2 ^ 16 + b3 * 2 ^ 24 := by
    rw [Nat.or_comm, mul_comm b3, ← Nat.mul_add_lt_is_or hlt3 b3]; ring
  rw [e1, e2, e3]

/-- A byte mask `&&& 0xFF` is reduction mod 256. -/
theorem and_0xFF_eq_mod (y : Nat) : y &&& 0xFF = y % 256 := by
  have h := Nat.and_pow_two_sub_one_eq_mod y 8
  norm_num at h
  exact h

/-! ### Claims about the fill model and time conversion -/

/-- C4: for every distance `d ≥ 20` and container height `h > 0`,
`calculateWaterLevel` computes `((h - (d - 20)) / h) * 100` clamped to
the interval 0..100, so the result always lies in 0..100; in particular
`h = 50`, `d = 25` yields exactly 90. -/
theorem claim_C4 :
    (∀ d h : ℚ, 20 ≤ d → 0 < h →
      calculateWaterLevel d h = min 100 (max 0 ((h - (d - 20)) / h * 100)) ∧
      0 ≤ calculateWaterLevel d h ∧ calculateWaterLevel d h ≤ 100) ∧
    calculateWaterLevel 25 50 = 90 := by
  constructor
  · intro d h hd hh
    unfold calculateWaterLevel
    rw [if_neg (by linarith)]
    refine ⟨?_, ?_, ?_⟩ <;>
      · simp only [min_def, max_def]
        split_ifs <;> linarith
  · norm_num [calculateWaterLevel]

/-- C4 witness: the theorem applied at the spec's example point. -/
theorem claim_C4_witness :
    calculateWaterLevel 25 50 = min 100 (max 0 ((50 - (25 - 20)) / 50 * 100)) ∧
    0 ≤ calculateWaterLevel 25 50 ∧ calculateWaterLevel 25 50 ≤ 100 :=
  claim_C4.1 25 50 (by norm_num) (by norm_num)

/-- C5: for every container height `h`, the fill percentage is 0
whenever the distance is the timeout sentinel (`measureDistanceCM`
returns `-1` when `pulseIn` times out with duration 0) or is below the
20 cm sensor offset. -/
theorem claim_C5 :
    ∀ d h : ℚ, (d < 20 → calculateWaterLevel d h = 0) ∧
      calculateWaterLevel (measureDistanceCM 0) h = 0 := by
  intro d h
  refine ⟨fun hd => ?_, ?_⟩
  · unfold calculateWaterLevel
    rw [if_pos hd]
  · norm_num [measureDistanceCM, calculateWaterLevel]

/-- C5 witness: concrete instance at the sentinel distance `-1` and
height 50. -/
theorem claim_C5_witness :
    calculateWaterLevel (-1) 50 = 0 ∧ calculateWaterLevel (measureDistanceCM 0) 50 = 0 :=
  ⟨(claim_C5 (-1) 50).1 (by norm_num), (claim_C5 (-1) 50).2⟩

/-- C6: after `clearConfig`, `loadConfig` returns `none` (NotFound,
populating no field), for every prior store content: the clear
overwrites every byte, including the marker at address 63, with the
non-marker value `0xFF`. -/
theorem claim_C6 (e : Nat → Nat) : loadConfig (clearConfig e) = none := by
  simp [loadConfig, clearConfig, rd]

/-- C6 witness: concrete store. -/
theorem claim_C6_witness : loadConfig (clearConfig (fun _ => 0)) = none :=
  claim_C6 (fun _ => 0)

/-- C10: for minutes and seconds in 0..59, converting to milliseconds
and back is the identity. -/
theorem claim_C10 (m s : Nat) (hm : m ≤ 59) (hs : s ≤ 59) :
    msToMinSec (minSecToMs m s) = (m, s) := by
  unfold msToMinSec minSecToMs
  simp only [Prod.mk.injEq]
  omega

/-- C10 witness: the round trip at the extreme point 59 m 59 s. -/
theorem claim_C10_witness : msToMinSec (minSecToMs 59 59) = (59, 59) :=
  claim_C10 59 59 (by decide) (by decide)

/-! ### C2: EEPROM round trip -/

/-- C2: for every valid configuration record, saving and then loading
(when the commit succeeds, i.e. on the store `saveConfig` produced)
returns a record field-equal to the original: all six fields round-trip
through the fixed-offset little-endian byte layout unchanged. -/
theorem claim_C2 (c : Config) (e : Nat → Nat) (hv : c.Valid) :
    loadConfig (saveConfig c e) = some c := by
  obtain ⟨mac, rr, bb, led, ssid, pw⟩ := c
  obtain ⟨hmacLen, hmacB, hrr, hbb, hssidLen, hssidB, hpwLen, hpwB⟩ := hv
  simp only at hmacLen hmacB hrr hbb hssidLen hssidB hpwLen hpwB
  unfold loadConfig
  rw [if_neg (by simp [rd, saveConfig])]
  simp only [Option.some.injEq, Config.mk.injEq]
  refine ⟨?_, ?_, ?_, ?_, ?_, ?_⟩
  · -- parent MAC, addresses 0-5
    apply List.ext_getElem (by simpa using hmacLen.symm)
    intro i h1 h2
    simp only [List.getElem_map, List.getElem_range]
    have hi : i < 6 := by simpa using h1
    simp only [rd, saveConfig]
    rw [if_pos hi, List.getD_eq_getElem?_getD, List.getElem?_eq_getElem (by omega),
      Option.getD_some]
    exact Nat.mod_eq_of_lt (hmacB _ (List.getElem_mem _))
  · -- refresh rate, addresses 6-9, little-endian
    rw [show List.range 4 = [0, 1, 2, 3] from rfl]
    simp only [List.foldl_cons, List.foldl_nil, Nat.zero_or, Nat.reduceAdd, Nat.reduceMul,
      Nat.zero_mul, Nat.shiftLeft_zero]
    have h6 : rd (saveConfig ⟨mac, rr, bb, led, ssid, pw⟩ e) 6 = rr % 256 := by
      simp only [rd, saveConfig]
      rw [if_neg (by norm_num), if_pos (by norm_num), Nat.shiftRight_eq_div_pow,
        and_0xFF_eq_mod]
      norm_num
    have h7 : rd (saveConfig ⟨mac, rr, bb, led, ssid, pw⟩ e) 7 = rr / 2 ^ 8 % 256 := by
      simp only [rd, saveConfig]
      rw [if_neg (by norm_num), if_pos (by norm_num), Nat.shiftRight_eq_div_pow,
        and_0xFF_eq_mod]
      norm_num
    have h8 : rd (saveConfig ⟨mac, rr, bb, led, ssid, pw⟩ e) 8 = rr / 2 ^ 16 % 256 := by
      simp only [rd, saveConfig]
      rw [if_neg (by norm_num), if_pos (by norm_num), Nat.shiftRight_eq_div_pow,
        and_0xFF_eq_mod]
      norm_num
    have h9 : rd (saveConfig ⟨mac, rr, bb, led, ssid, pw⟩ e) 9 = rr / 2 ^ 24 % 256 := by
      simp only [rd, saveConfig]
      rw [if_neg (by norm_num), if_pos (by norm_num), Nat.shiftRight_eq_div_pow,
        and_0xFF_eq_mod]
      norm_num
    rw [h6, h7, h8, h9,
      lorBytesLE _ _ _ _ (by omega) (by omega) (by omega) (by omega)]
    norm_num
    omega
  · -- barrel height bit pattern, addresses 10-13, little-endian
    rw [show List.range 4 = [0, 1, 2, 3] from rfl]
    simp only [List.foldl_cons, List.foldl_nil, Nat.zero_or, Nat.reduceAdd, Nat.reduceMul,
      Nat.zero_mul, Nat.shiftLeft_zero]
    have h10 : rd (saveConfig ⟨mac, rr, bb, led, ssid, pw⟩ e) 10 = bb % 256 := by
      simp only [rd, saveConfig]
      rw [if_neg (by norm_num), if_neg (by norm_num), if_pos (by norm_num),
        Nat.shiftRight_eq_div_pow, and_0xFF_eq_mod]
      norm_num
    have h11 : rd (saveConfig ⟨mac, rr, bb, led, ssid, pw⟩ e) 11 = bb / 2 ^ 8 % 256 := by
      simp only [rd, saveConfig]
      rw [if_neg (by norm_num), if_neg (by norm_num), if_pos (by norm_num),
        Nat.shiftRight_eq_div_pow, and_0xFF_eq_mod]
      norm_num
    have h12 : rd (saveConfig ⟨mac, rr, bb, led, ssid, pw⟩ e) 12 = bb / 2 ^ 16 % 256 := by
      simp only [rd, saveConfig]
      rw [if_neg (by norm_num), if_neg (by norm_num), if_pos (by norm_num),
        Nat.shiftRight_eq_div_pow, and_0xFF_eq_mod]
      norm_num
    have h13 : rd (saveConfig ⟨mac, rr, bb, led, ssid, pw⟩ e) 13 = bb / 2 ^ 24 % 256 := by
      simp only [rd, saveConfig]
      rw [if_neg (by norm_num), if_neg (by norm_num), if_pos (by norm_num),
        Nat.shiftRight_eq_div_pow, and_0xFF_eq_mod]
      norm_num
    rw [h10, h11, h12, h13,
      lorBytesLE _ _ _ _ (by omega) (by omega) (by omega) (by omega)]
    norm_num
    omega
  · -- LED flag, address 14
    cases led <;> simp [rd, saveConfig]
  · -- SSID prefix, addresses 15-30
    apply List.ext_getElem (by simpa using hssidLen.symm)
    intro i h1 h2
    simp only [List.getElem_map, List.getElem_range]
    have hi : i < 16 := by simpa using h1
    simp only [rd, saveConfig]
    rw [if_neg (by omega), if_neg (by omega), if_neg (by omega), if_neg (by omega),
      if_pos (by omega), show 15 + i - 15 = i from by omega, List.getD_eq_getElem?_getD,
      List.getElem?_eq_getElem (by omega), Option.getD_some]
    exact Nat.mod_eq_of_lt (hssidB _ (List.getElem_mem _))
  · -- WiFi password, addresses 31-62
    apply List.ext_getElem (by simpa using hpwLen.symm)
    intro i h1 h2
    simp only [List.getElem_map, List.getElem_range]
    have hi : i < 32 := by simpa using h1
    simp only [rd, saveConfig]
    rw [if_neg (by omega), if_neg (by omega), if_neg (by omega), if_neg (by omega),
      if_neg (by omega), if_pos (by omega), show 31 + i - 31 = i from by omega,
      List.getD_eq_getElem?_getD, List.getElem?_eq_getElem (by omega), Option.getD_some]
    exact Nat.mod_eq_of_lt (hpwB _ (List.getElem_mem _))

set_option maxRecDepth 100000 in
/-- C2 witness: round trip of the default configuration through a zeroed
store. -/
theorem claim_C2_witness :
    defaultConfig.Valid ∧
    loadConfig (saveConfig defaultConfig (fun _ => 0)) = some defaultConfig :=
  ⟨by decide, claim_C2 defaultConfig (fun _ => 0) (by decide)⟩

/-! ### C3: ESP-NOW retry gating -/

/-- ESP-NOW link state: the four globals of main.cpp lines 61-64. -/
structure EspState where
  espNowInitialized : Bool
  espNowSendSuccess : Bool
  lastEspNowSend : Nat
  lastEspNowRetry : Nat
deriving DecidableEq, Repr

/-- Events touching the ESP-NOW globals:
* `loopTick now` — one pass of the retry check in `loop`
  (main.cpp lines 1124-1129), with `accepted` the return status of the
  `esp_now_send` call inside `sendEspNowData` if a retry is issued;
* `freshSend now accepted` — a scheduled/manual `sendEspNowData`
  (lines 269-296), which records `lastEspNowSend` but not
  `lastEspNowRetry`;
* `sendResult ok` — the `onEspNowSend` completion callback
  (lines 210-222), which sets `espNowSendSuccess := (status == 0)`. -/
inductive EspEvent where
  | loopTick (now : Nat) (accepted : Bool)
  | freshSend (now : Nat) (accepted : Bool)
  | sendResult (ok : Bool)
deriving DecidableEq, Repr

/-- `ESP_NOW_RETRY_MS` (main.cpp line 35). -/
def ESP_NOW_RETRY_MS : Nat := 1000

/-- One event's effect on the ESP-NOW state; the second component is
`some t` when the retry branch of `loop` issues a send at time `t`. -/
def espStep (s : EspState) : EspEvent → EspState × Option Nat
  | .loopTick now accepted =>
      if s.espNowInitialized && !s.espNowSendSuccess &&
          decide (ESP_NOW_RETRY_MS ≤ sub32 now s.lastEspNowRetry) then
        ({ s with
            espNowSendSuccess := if accepted then s.espNowSendSuccess else false,
            lastEspNowSend := now,
            lastEspNowRetry := now }, some now)
      else (s, none)
  | .freshSend now accepted =>
      if s.espNowInitialized then
        ({ s with
            espNowSendSuccess := if accepted then s.espNowSendSuccess else false,
            lastEspNowSend := now }, none)
      else (s, none)
  | .sendResult ok => ({ s with espNowSendSuccess := ok }, none)

/-- Run of the ESP-NOW machine over an event list, collecting the times
at which the retry branch issued sends. -/
def espRun : EspState → List EspEvent → EspState × List Nat
  | s, [] => (s, [])
  | s, ev :: evs =>
    let step := espStep s ev
    let rest := espRun step.1 evs
    (rest.1, step.2.toList ++ rest.2)

/-- Retry times issued by a run are spaced at least `ESP_NOW_RETRY_MS`
apart, anchored at the incoming `lastEspNowRetry` (in wraparound
arithmetic). -/
theorem espRun_chain (evs : List EspEvent) : ∀ s : EspState,
    List.Chain (fun a b => ESP_NOW_RETRY_MS ≤ sub32 b a)
      s.lastEspNowRetry (espRun s evs).2 := by
  induction evs with
  | nil => intro s; exact List.Chain.nil
  | cons ev evs ih =>
    intro s
    cases ev with
    | loopTick now accepted =>
      simp only [espRun, espStep]
      split
      case isTrue h =>
        simp only [Bool.and_eq_true, Bool.not_eq_true', decide_eq_true_eq] at h
        simp only [Option.toList, List.singleton_append, List.nil_append]
        refine List.Chain.cons h.2 ?_
        simpa using ih { s with
          espNowSendSuccess := if accepted then s.espNowSendSuccess else false,
          lastEspNowSend := now, lastEspNowRetry := now }
      case isFalse h => simpa using ih s
    | freshSend now accepted =>
      simp only [espRun, espStep]
      split
      case isTrue h =>
        simpa using ih { s with
          espNowSendSuccess := if accepted then s.espNowSendSuccess else false,
          lastEspNowSend := now }
      case isFalse h => simpa using ih s
    | sendResult ok =>
      simpa [espRun, espStep] using ih { s with espNowSendSuccess := ok }

/-- C3 (amended): the retry check in `loop` gates on the time of the
previous retry (`lastEspNowRetry`), not on the time of the failed send:
(1) consecutive retry issues in any run are separated by at least
`ESP_NOW_RETRY_MS` (anchored at the incoming `lastEspNowRetry`);
(2) a loop pass while a failure is pending and the gate has elapsed does
re-issue a send; (3) once a success signal has set
`espNowSendSuccess`, the retry branch issues nothing. The first retry
after a fresh failure is not gated on the failure time and may occur
earlier than failure time plus `ESP_NOW_RETRY_MS` (see the
counterexample). -/
theorem claim_C3 :
    (∀ (s : EspState) (evs : List EspEvent),
      List.Chain (fun a b => ESP_NOW_RETRY_MS ≤ sub32 b a)
        s.lastEspNowRetry (espRun s evs).2) ∧
    (∀ (s : EspState) (now : Nat) (accepted : Bool),
      s.espNowInitialized = true → s.espNowSendSuccess = false →
      ESP_NOW_RETRY_MS ≤ sub32 now s.lastEspNowRetry →
      (espStep s (.loopTick now accepted)).2 = some now) ∧
    (∀ (s : EspState) (now : Nat) (accepted : Bool),
      s.espNowSendSuccess = true →
      (espStep s (.loopTick now accepted)).2 = none) := by
  refine ⟨fun s evs => espRun_chain evs s, ?_, ?_⟩
  · intro s now accepted h1 h2 h3
    simp [espStep, h1, h2, h3]
  · intro s now accepted h
    simp [espStep, h]

/-- C3 witness: a pending failure with an elapsed gate is re-sent; a
successful link is not. -/
theorem claim_C3_witness :
    (espStep ⟨true, false, 0, 0⟩ (.loopTick 1000 true)).2 = some 1000 ∧
    (espStep ⟨true, true, 0, 0⟩ (.loopTick 5000 true)).2 = none :=
  ⟨claim_C3.2.1 ⟨true, false, 0, 0⟩ 1000 true rfl rfl (by decide),
   claim_C3.2.2 ⟨true, true, 0, 0⟩ 5000 true rfl⟩

/-- C3 counterexample to the claim as stated: from the boot state
(`lastEspNowRetry = 0`), a scheduled send at time 5000 whose completion
callback reports failure (so the failure is at `t0 = 5000`) is re-sent
by the retry branch already at time 5001, before
`t0 + ESP_NOW_RETRY_MS = 6000`, because the gate compares against the
stale `lastEspNowRetry`, not against the failed send's time. -/
theorem claim_C3_counterexample :
    (espRun ⟨true, true, 0, 0⟩
      [.freshSend 5000 true, .sendResult false, .loopTick 5001 true]).2 = [5001] ∧
    5001 < 5000 + ESP_NOW_RETRY_MS := by decide

/-! ### C7: long-press factory reset -/

/-- `BTN_HOLD_MS` (main.cpp line 30). -/
def BTN_HOLD_MS : Nat := 4000

/-- State of `checkButton`'s two static locals `t0` and `pressed`
(main.cpp lines 983-984); both are zero-initialized at boot. -/
structure BtnState where
  t0 : Nat
  pressed : Bool
deriving DecidableEq, Repr

/-- `checkButton` (main.cpp lines 982-1001) for one loop pass at clock
`now`, with `btnLow = true` when `digitalRead(BTN_PIN) == LOW`
(pressed). The first component is `true` when the long-press action
fires (`clearConfig`, blink, `ESP.restart()`). -/
def checkButton (now : Nat) (btnLow : Bool) (s : BtnState) : Bool × BtnState :=
  if btnLow then
    if s.t0 = 0 then (false, ⟨now, true⟩)
    else if BTN_HOLD_MS ≤ sub32 now s.t0 then (true, s)
    else (false, s)
  else if s.pressed && decide (0 < s.t0) then (false, ⟨0, false⟩)
  else (false, s)

/-- Run of `checkButton` over a list of loop passes `(now, btnLow)`.
A firing tick restarts the device, so the run stops there and reports
the firing time. -/
def runBtn : BtnState → List (Nat × Bool) → Option Nat × BtnState
  | s, [] => (none, s)
  | s, (now, lo) :: ticks =>
    let step := checkButton now lo s
    if step.1 then (some now, step.2)
    else runBtn step.2 ticks

/-- From a latched press (nonzero `t0`), a run of pressed ticks fires
exactly at the first tick whose elapsed time since `t0` reaches
`BTN_HOLD_MS`. -/
theorem runBtn_pressed (ts : List Nat) : ∀ t0 : Nat, t0 ≠ 0 →
    (runBtn ⟨t0, true⟩ (ts.map (fun t => (t, true)))).1
      = ts.find? (fun t => decide (BTN_HOLD_MS ≤ sub32 t t0)) := by
  induction ts with
  | nil => intro t0 h; simp [runBtn]
  | cons t ts ih =>
    intro t0 h
    simp only [List.map_cons, runBtn, checkButton, List.find?_cons]
    rw [if_neg h]
    by_cases hge : BTN_HOLD_MS ≤ sub32 t t0
    · simp [hge]
    · simp [hge, ih t0 h]

/-- C7 (amended): provided the press's first tick reads a nonzero clock
value (the code reuses `t0 = 0` as its idle sentinel), a continuous
press starting at `t1` fires exactly at the first subsequent tick whose
elapsed time reaches `BTN_HOLD_MS` — reaching the threshold exactly
suffices — and at most once per press (firing restarts the device);
a release tick never fires and returns the detector to its pristine
idle state, so a new press behaves independently. A press whose first
tick reads clock 0 does not latch and may fire late (see the
counterexample). -/
theorem claim_C7 :
    (∀ (t1 : Nat) (ts : List Nat), t1 ≠ 0 →
      (runBtn ⟨0, false⟩ ((t1, true) :: ts.map (fun t => (t, true)))).1
        = ts.find? (fun t => decide (BTN_HOLD_MS ≤ sub32 t t1))) ∧
    (∀ (now : Nat) (s : BtnState), (checkButton now false s).1 = false) ∧
    (∀ (now t : Nat), t ≠ 0 →
      checkButton now false ⟨t, true⟩ = (false, ⟨0, false⟩)) := by
  refine ⟨?_, ?_, ?_⟩
  · intro t1 ts h
    have hfirst : runBtn ⟨0, false⟩ ((t1, true) :: ts.map (fun t => (t, true)))
        = runBtn ⟨t1, true⟩ (ts.map (fun t => (t, true))) := rfl
    rw [hfirst]
    exact runBtn_pressed ts t1 h
  · intro now s
    simp only [checkButton, Bool.false_eq_true, if_false]
    split <;> rfl
  · intro now t h
    simp [checkButton, Nat.pos_of_ne_zero h]

/-- C7 witness: a press latched at clock 1 and held fires at the tick
reaching the threshold (clock 4001, elapsed exactly 4000 ms); a release
after a latched press restores the boot state. -/
theorem claim_C7_witness :
    (runBtn ⟨0, false⟩ ((1, true) :: [4001].map (fun t => (t, true)))).1 = some 4001 ∧
    checkButton 9000 false ⟨1, true⟩ = (false, ⟨0, false⟩) :=
  ⟨by rw [claim_C7.1 1 [4001] (by decide)]; decide,
   claim_C7.2.2 9000 1 (by decide)⟩

/-- C7 counterexample to the claim as stated: the line is pressed at
every tick from clock 0 through clock 4000 — a continuous press of
exactly `BTN_HOLD_MS` — yet nothing fires: at the tick at clock 0 the
assignment `t0 = millis()` stores 0, which `checkButton` cannot tell
from its idle sentinel, so the press re-latches at clock 1 and the
threshold is not yet reached at clock 4000. -/
theorem claim_C7_counterexample :
    (runBtn ⟨0, false⟩ [(0, true), (1, true), (4000, true)]).1 = none ∧
    4000 = 0 + BTN_HOLD_MS := by decide

/-! ### C9: manual vs scheduled sample -/

/-- The globals touched by the sampling path: the configuration, the
current reading (main.cpp lines 56-58), and the ESP-NOW send state with
its payload (lines 61-71). -/
structure SysState where
  config : Config
  currentDistance : ℚ
  currentWaterLevel : ℚ
  lastSensorRead : Nat
  espNowInitialized : Bool
  payload : ℚ × ℚ × ℚ
  lastEspNowSend : Nat
  espNowSendSuccess : Bool
deriving DecidableEq, Repr

/-- `sendEspNowData` (main.cpp lines 269-296) at clock `now`: a no-op
when ESP-NOW is uninitialized; otherwise fills the payload from the
current reading and the configured barrel height, issues
`esp_now_send` — whose immediate return status is the external
`accepted`; a nonzero status clears `espNowSendSuccess`, otherwise the
flag is left for the completion callback — and records
`lastEspNowSend`. -/
def sendEspNowData (now : Nat) (accepted : Bool) (s : SysState) : SysState :=
  if !s.espNowInitialized then s
  else
    { s with
      payload := (s.currentDistance, s.currentWaterLevel,
        floatValOfBits s.config.barrelBits),
      espNowSendSuccess := if accepted then s.espNowSendSuccess else false,
      lastEspNowSend := now }

/-- `updateSensorReadings` (main.cpp lines 347-371) at clock `now`,
with `measured` the distance returned by `measureDistanceCM()` and
`accepted` the `esp_now_send` status of the send it may trigger: when
the refresh interval has elapsed, measure, recompute the water level,
stamp `lastSensorRead`, and send via ESP-NOW if initialized; otherwise
do nothing. -/
def updateSensorReadings (now : Nat) (measured : ℚ) (accepted : Bool)
    (s : SysState) : SysState :=
  if s.config.refreshRateMs ≤ sub32 now s.lastSensorRead then
    let s1 := { s with
      currentDistance := measured,
      currentWaterLevel := calculateWaterLevel measured (floatValOfBits s.config.barrelBits),
      lastSensorRead := now }
    if s1.espNowInitialized then sendEspNowData now accepted s1 else s1
  else s

/-- State effect of `handleReadSensor` (main.cpp lines 753-783), the
forced sample of the `/read` endpoint: measure, recompute the water
level, stamp `lastSensorRead`, send via ESP-NOW if initialized. The
JSON response and CORS headers are presentation-layer and carry no
state. -/
def handleReadSensor (now : Nat) (measured : ℚ) (accepted : Bool)
    (s : SysState) : SysState :=
  let s1 := { s with
    currentDistance := measured,
    currentWaterLevel := calculateWaterLevel measured (floatValOfBits s.config.barrelBits),
    lastSensorRead := now }
  if s1.espNowInitialized then sendEspNowData now accepted s1 else s1

/-- C9: a forced sample performs exactly the same side effects as a
scheduled sample taken at the same clock with the same measurement:
when the interval has elapsed, the two are the same state transformer;
and the forced sample overwrites the reading, recomputes the fill
percentage, stamps `lastSensorRead := now` (resetting the interval
timer), unconditionally on the interval check. -/
theorem claim_C9 (now : Nat) (measured : ℚ) (accepted : Bool) (s : SysState)
    (hdue : s.config.refreshRateMs ≤ sub32 now s.lastSensorRead) :
    updateSensorReadings now measured accepted s = handleReadSensor now measured accepted s ∧
    (handleReadSensor now measured accepted s).lastSensorRead = now ∧
    (handleReadSensor now measured accepted s).currentDistance = measured ∧
    (handleReadSensor now measured accepted s).currentWaterLevel
      = calculateWaterLevel measured (floatValOfBits s.config.barrelBits) := by
  refine ⟨?_, ?_, ?_, ?_⟩
  · unfold updateSensorReadings handleReadSensor
    rw [if_pos hdue]
  all_goals
    cases hinit : s.espNowInitialized <;> cases accepted <;>
      simp [handleReadSensor, sendEspNowData, hinit]

/-- A reachable sampling state: defaults, ESP-NOW initialized, boot
timestamps. -/
def sampleState : SysState :=
  ⟨defaultConfig, 0, 0, 0, true, (0, 0, 0), 0, true⟩

/-- C9 witness: at clock 5000 the default 5000 ms interval has elapsed,
and forced and scheduled samples coincide. -/
theorem claim_C9_witness :
    updateSensorReadings 5000 25 true sampleState = handleReadSensor 5000 25 true sampleState ∧
    (handleReadSensor 5000 25 true sampleState).lastSensorRead = 5000 :=
  ⟨(claim_C9 5000 25 true sampleState (by decide)).1,
   (claim_C9 5000 25 true sampleState (by decide)).2.1⟩

/-! ### C1 and C8: the save request handler -/

/-- The HTTP responses `handleSave` can produce (main.cpp
lines 557-613): the four 400 validation rejections, the 200 success
(followed by a restart), and the 500 commit failure. -/
inductive SaveResp where
  | missingParams
  | badMac
  | badTime
  | badBarrel
  | badPassword
  | ok
  | saveFailed
deriving DecidableEq, Repr

/-- A parsed `/save` POST request as `handleSave` consumes it:
presence bits for the four required args; `pmacBytes` the bytes
`sscanf("%hhx:%hhx:...")` successfully converts from the `pmac` arg, in
order (parsing succeeds when all 6 convert); the `toInt()` values of
the numeric args; the checkbox presence bit; and the byte strings of
the `ssid` and `password` args. -/
structure SaveReq where
  hasPmac : Bool
  hasMinutes : Bool
  hasSeconds : Bool
  hasBarrel : Bool
  pmacBytes : List Nat
  minutesInt : Int
  secondsInt : Int
  barrelInt : Int
  hasLed : Bool
  ssidArg : List Nat
  passwordArg : List Nat
deriving DecidableEq, Repr

/-- Result of a save request: the response, the in-memory `config`
global after the handler returns, and the argument `saveConfig` was
invoked with (`none` when validation failed before reaching it). -/
structure SaveOutcome where
  resp : SaveResp
  config : Config
  attempted : Option Config
deriving DecidableEq, Repr

/-- C implicit conversion of a `long` to `uint8_t` (used for the
`minutes`/`seconds` args): value modulo 256. -/
def u8ofInt (i : Int) : Nat := (i % 256).toNat

/-- `strcpy` into a fixed-size buffer: the source bytes, the
terminating NUL, then the untouched tail of the old buffer contents. -/
def strcpyBuf (dst src : List Nat) : List Nat :=
  src ++ 0 :: dst.drop (src.length + 1)

/-- `handleSave` (main.cpp lines 557-613). Mirrors the C++ control
flow: `parseMac` writes its converted bytes directly into
`config.parentMac` before the format check; `refreshRateMs`,
`barrelHeightCm`, `ledEnabled` and `ssidPrefix` are likewise assigned
to the global `config` as each section parses, so a later rejection
leaves the earlier assignments in place. `commitOk` is the external
`EEPROM.commit()` result consumed on the `saveConfig` path. -/
def handleSave (req : SaveReq) (commitOk : Bool) (cfg0 : Config) : SaveOutcome :=
  if !(req.hasPmac && req.hasMinutes && req.hasSeconds && req.hasBarrel) then
    ⟨.missingParams, cfg0, none⟩
  else
    let cfg1 := { cfg0 with
      parentMac := req.pmacBytes ++ cfg0.parentMac.drop req.pmacBytes.length }
    if req.pmacBytes.length ≠ 6 then ⟨.badMac, cfg1, none⟩
    else
      let minutes := u8ofInt req.minutesInt
      let seconds := u8ofInt req.secondsInt
      if 59 < minutes ∨ 59 < seconds then ⟨.badTime, cfg1, none⟩
      else
        let cfg2 := { cfg1 with refreshRateMs := minSecToMs minutes seconds }
        if req.barrelInt ≤ 0 ∨ 1000 < req.barrelInt then ⟨.badBarrel, cfg2, none⟩
        else
          let cfg3 := { cfg2 with
            barrelBits := bitsOfNatFloat req.barrelInt.toNat,
            ledEnabled := req.hasLed }
          let cfg4 := if 0 < req.ssidArg.length ∧ req.ssidArg.length ≤ 15 then
              { cfg3 with ssidPrefix := strcpyBuf cfg3.ssidPrefix req.ssidArg }
            else cfg3
          if 8 ≤ req.passwordArg.length ∧ req.passwordArg.length ≤ 31 then
            let cfg5 := { cfg4 with
              wifiPassword := strcpyBuf cfg4.wifiPassword req.passwordArg }
            if commitOk then ⟨.ok, cfg5, some cfg5⟩ else ⟨.saveFailed, cfg5, some cfg5⟩
          else if 0 < req.passwordArg.length then ⟨.badPassword, cfg4, none⟩
          else if commitOk then ⟨.ok, cfg4, some cfg4⟩ else ⟨.saveFailed, cfg4, some cfg4⟩

/-- C1 (amended): when a save request fails validation (any response
other than the 200 success and the 500 commit failure), `saveConfig`
is never invoked, so nothing is persisted; and a missing-parameters
rejection leaves the in-memory configuration unchanged. (Rejections
after the first parsing step do mutate the in-memory config: the fields
parsed before the failing check — parent MAC, refresh rate, barrel
height, LED flag, SSID prefix in order — have already been assigned;
see the counterexample.) -/
theorem claim_C1 (req : SaveReq) (commitOk : Bool) (cfg : Config)
    (h1 : (handleSave req commitOk cfg).resp ≠ SaveResp.ok)
    (h2 : (handleSave req commitOk cfg).resp ≠ SaveResp.saveFailed) :
    (handleSave req commitOk cfg).attempted = none ∧
    ((handleSave req commitOk cfg).resp = SaveResp.missingParams →
      (handleSave req commitOk cfg).config = cfg) := by
  have hc : (handleSave req commitOk cfg).resp = SaveResp.ok ∨
      (handleSave req commitOk cfg).resp = SaveResp.saveFailed ∨
      ((handleSave req commitOk cfg).attempted = none ∧
        ((handleSave req commitOk cfg).resp = SaveResp.missingParams →
          (handleSave req commitOk cfg).config = cfg)) := by
    unfold handleSave
    repeat' split <;> try simp
  rcases hc with h | h | h
  · exact absurd h h1
  · exact absurd h h2
  · exact h

/-- A request with a well-formed MAC and refresh rate but an
out-of-range barrel height (2000 cm). -/
def reqBadBarrel : SaveReq :=
  ⟨true, true, true, true, [0xAA, 0xBB, 0xCC, 0xDD, 0xEE, 0x11], 0, 10, 2000, false, [], []⟩

set_option maxRecDepth 100000 in
/-- C1 witness: the rejected request persisted nothing. -/
theorem claim_C1_witness :
    (handleSave reqBadBarrel true defaultConfig).attempted = none ∧
    ((handleSave reqBadBarrel true defaultConfig).resp = SaveResp.missingParams →
      (handleSave reqBadBarrel true defaultConfig).config = defaultConfig) :=
  claim_C1 reqBadBarrel true defaultConfig (by decide) (by decide)

set_option maxRecDepth 100000 in
/-- C1 counterexample to the claim as stated: a request whose barrel
height fails validation is rejected with nothing persisted, yet the
in-memory configuration does not remain unchanged — the parent MAC and
the refresh rate were already overwritten before the failing check. -/
theorem claim_C1_counterexample :
    (handleSave reqBadBarrel true defaultConfig).resp = SaveResp.badBarrel ∧
    (handleSave reqBadBarrel true defaultConfig).attempted = none ∧
    (handleSave reqBadBarrel true defaultConfig).config ≠ defaultConfig ∧
    (handleSave reqBadBarrel true defaultConfig).config.parentMac
      ≠ defaultConfig.parentMac ∧
    (handleSave reqBadBarrel true defaultConfig).config.refreshRateMs
      ≠ defaultConfig.refreshRateMs := by
  decide

/-- C8 (amended): the default configuration's sample interval is 5000 ms
and so positive, but the save boundary does not enforce positivity: a
successful save stores `minSecToMs` of the submitted (byte-truncated)
minutes and seconds, which is positive exactly when minutes and seconds
are not both zero — a request with both zero is accepted and stores a
zero interval. -/
theorem claim_C8 :
    0 < defaultConfig.refreshRateMs ∧
    (∀ (req : SaveReq) (commitOk : Bool) (cfg c' : Config),
      (handleSave req commitOk cfg).attempted = some c' →
      (0 < c'.refreshRateMs ↔
        0 < u8ofInt req.minutesInt + u8ofInt req.secondsInt)) := by
  constructor
  · norm_num [defaultConfig]
  · intro req co cfg c' h
    have hc : ∀ x ∈ (handleSave req co cfg).attempted,
        x.refreshRateMs = minSecToMs (u8ofInt req.minutesInt) (u8ofInt req.secondsInt) := by
      unfold handleSave
      repeat' split <;> try simp [strcpyBuf]
    have hx := hc c' (Option.mem_def.mpr h)
    rw [hx]
    unfold minSecToMs
    omega

/-- A fully valid request whose minutes and seconds are both zero. -/
def reqZeroInterval : SaveReq :=
  ⟨true, true, true, true, [0xAA, 0xBB, 0xCC, 0xDD, 0xEE, 0x11], 0, 0, 100, true, [], []⟩

/-- A fully valid request with a one-minute refresh rate. -/
def reqOneMinute : SaveReq :=
  ⟨true, true, true, true, [0xAA, 0xBB, 0xCC, 0xDD, 0xEE, 0x11], 1, 0, 100, true, [], []⟩

set_option maxRecDepth 100000 in
/-- C8 witness: the default is positive, and a successful save of a
one-minute interval stores a positive interval. -/
theorem claim_C8_witness :
    0 < defaultConfig.refreshRateMs ∧
    (0 < (handleSave reqOneMinute true defaultConfig).config.refreshRateMs ↔
      0 < u8ofInt reqOneMinute.minutesInt + u8ofInt reqOneMinute.secondsInt) :=
  ⟨claim_C8.1, claim_C8.2 reqOneMinute true defaultConfig _ (by decide)⟩

set_option maxRecDepth 100000 in
/-- C8 counterexample to the claim as stated: a save request with
minutes = 0 and seconds = 0 is not rejected — it succeeds, is persisted,
and stores `refreshRateMs = 0`, violating the claimed invariant. -/
theorem claim_C8_counterexample :
    (handleSave reqZeroInterval true defaultConfig).resp = SaveResp.ok ∧
    (handleSave reqZeroInterval true defaultConfig).config.refreshRateMs = 0 ∧
    (handleSave reqZeroInterval true defaultConfig).attempted
      = some (handleSave reqZeroInterval true defaultConfig).config := by
  decide
